/-
Verification development for the node-local-network-video-streaming server.

Shallow embedding of the repository sources:
- src/server.js  (HLS variant: spawns an ffmpeg transcoding subprocess on
  prePublish of the configured input path, tracked in the nullable variable
  ffmpegProc; /api/info returns ip, rtmpIngest and hls fields);
- src/logger.js  (winston logger module followed by the FLV variant server:
  activeStreams set, socket.io client set, streamStatus / viewerCount
  broadcasts, /api/info, /health, SIGTERM/SIGINT handlers);
- src/client.js  (mediasoup viewer: negotiation caller, retries init after
  1000 ms when the consume response carries no consumers).

Stream paths, sets of active streams and connected sockets, the ffmpeg
process handle and the emitted socket messages are modelled explicitly;
handlers become pure functions from state and event to new state plus a
list of emitted outputs, mirroring the source handler bodies.
-/
import Mathlib

namespace Streaming

/-! ## HLS variant (src/server.js) -/

namespace Hls

/-- CONFIG constants of src/server.js. -/
def INPUT_APP : String := "input"

/-- OUTPUT_APP constant of src/server.js. -/
def OUTPUT_APP : String := "live"

/-- STREAM_KEY constant of src/server.js. -/
def STREAM_KEY : String := "stream"

/-- The single configured ingest path, as compared by the prePublish handler:
the template literal /INPUT_APP/STREAM_KEY. -/
def inputPath : String := "/" ++ INPUT_APP ++ "/" ++ STREAM_KEY

/-- State of the HLS variant relevant to transcoding: whether ffmpegProc is
non-null, and how many times spawn("ffmpeg", ...) has been called. -/
structure HlsState where
  ffmpegRunning : Bool
  spawnCount : Nat
deriving DecidableEq, Repr

/-- Process start: ffmpegProc = null, nothing spawned yet. -/
def init : HlsState := ⟨false, 0⟩

/-- startFFmpeg from src/server.js: if (ffmpegProc) return; otherwise spawn
ffmpeg and store the handle. -/
def startFFmpeg (s : HlsState) : HlsState :=
  if s.ffmpegRunning then s
  else { ffmpegRunning := true, spawnCount := s.spawnCount + 1 }

/-- The nms prePublish handler of src/server.js: start ffmpeg only when the
stream path equals the configured input path. -/
def onPrePublish (streamPath : String) (s : HlsState) : HlsState :=
  if streamPath = inputPath then startFFmpeg s else s

/-- The nms donePublish handler of src/server.js: it only logs; no state
change and no call into the transcoder. -/
def onDonePublish (_streamPath : String) (s : HlsState) : HlsState := s

/-- The ffmpegProc exit handler of src/server.js: log and set
ffmpegProc = null. No restart, no budget, no error record. -/
def ffmpegOnExit (s : HlsState) : HlsState := { s with ffmpegRunning := false }

/-- Number of transcoding process handles tracked by the HLS variant:
the source keeps a single nullable variable. -/
def activeProcs (s : HlsState) : Nat := if s.ffmpegRunning then 1 else 0

/-- Keys of the JSON object returned by GET /api/info in src/server.js,
in source order. -/
def apiInfoFields : List String := ["ip", "rtmpIngest", "hls"]

/-- GET routes registered by src/server.js. -/
def getRoutes : List String := ["/", "/api/info"]

end Hls

/-! ## Process-signal handler registrations -/

/-- Process signals relevant to graceful shutdown. -/
inductive Sig
  | SIGTERM
  | SIGINT
deriving DecidableEq, Repr

/-- Actions a shutdown handler performs, in order. -/
inductive ShutdownAction
  | closeHttpServer
  | stopMediaServer
  | exitProcess (code : Nat)
deriving DecidableEq, Repr

/-- Look up the handler registered for a signal, if any. -/
def handlerFor (hs : List (Sig × List ShutdownAction)) (sig : Sig) :
    Option (List ShutdownAction) :=
  match hs with
  | [] => none
  | (s, acts) :: rest => if s = sig then some acts else handlerFor rest sig

namespace Hls

/-- src/server.js registers no process signal handler at all. -/
def signalHandlers : List (Sig × List ShutdownAction) := []

end Hls

/-! ## FLV variant (src/logger.js, server portion) -/

namespace Flv

/-- APP_NAME constant of the FLV variant. -/
def APP_NAME : String := "live"

/-- STREAM_KEY constant of the FLV variant. -/
def STREAM_KEY : String := "stream"

/-- The fixed path used by /api/info isLive and by the streamStatus unicast:
the template literal /APP_NAME/STREAM_KEY. -/
def livePath : String := "/" ++ APP_NAME ++ "/" ++ STREAM_KEY

/-- State of the FLV variant: the activeStreams set of stream paths and the
clients set of connected socket ids. -/
structure FlvState where
  activeStreams : Finset String
  clients : Finset Nat
deriving DecidableEq

/-- Process start: both sets empty. -/
def initState : FlvState := ⟨∅, ∅⟩

/-- Messages sent over the viewer notification channel. -/
inductive Msg
  | viewerCount (n : Nat)
  | streamStatus (live : Bool) (path : String)
deriving DecidableEq, Repr

/-- An emission: io.emit reaches every connected session (broadcastAll);
socket.emit reaches one session (unicast). -/
inductive Out
  | broadcastAll (m : Msg)
  | unicast (sid : Nat) (m : Msg)
deriving DecidableEq, Repr

/-- Events handled by the FLV variant that touch the modelled state:
nms lifecycle events and socket.io connection events. -/
inductive Event
  | prePublish (path : String)
  | donePublish (path : String)
  | doneConnect
  | connect (sid : Nat)
  | disconnect (sid : Nat)
deriving DecidableEq, Repr

/-- One handler invocation, transcribed from the handler bodies of
src/logger.js: prePublish adds the path to activeStreams and broadcasts
streamStatus live=true; donePublish deletes the path and broadcasts
streamStatus live=false; doneConnect only logs; a new socket connection
adds the socket, broadcasts the updated viewer count to all sessions and
unicasts the current stream status to the new socket; a disconnect removes
the socket and broadcasts the updated count. -/
def step (s : FlvState) : Event → FlvState × List Out
  | Event.prePublish path =>
      ({ s with activeStreams := insert path s.activeStreams },
       [Out.broadcastAll (Msg.streamStatus true path)])
  | Event.donePublish path =>
      ({ s with activeStreams := s.activeStreams.erase path },
       [Out.broadcastAll (Msg.streamStatus false path)])
  | Event.doneConnect => (s, [])
  | Event.connect sid =>
      ({ s with clients := insert sid s.clients },
       [Out.broadcastAll (Msg.viewerCount (insert sid s.clients).card),
        Out.unicast sid
          (Msg.streamStatus (decide (0 < s.activeStreams.card)) livePath)])
  | Event.disconnect sid =>
      ({ s with clients := s.clients.erase sid },
       [Out.broadcastAll (Msg.viewerCount (s.clients.erase sid).card)])

/-- State part of a handler invocation. -/
def stepState (s : FlvState) (e : Event) : FlvState := (step s e).1

/-- Emissions of a handler invocation. -/
def stepOut (s : FlvState) (e : Event) : List Out := (step s e).2

/-- Run a sequence of events, returning the final state. -/
def runState (s : FlvState) : List Event → FlvState
  | [] => s
  | e :: es => runState (stepState s e) es

/-- Run a sequence of events, returning all emissions in order. -/
def runOut (s : FlvState) : List Event → List Out
  | [] => []
  | e :: es => stepOut s e ++ runOut (stepState s e) es

/-- A publish-lifecycle event on a single identity. -/
inductive PubEvent
  | pre
  | done
deriving DecidableEq, Repr

/-- Interpret a publish-lifecycle event on identity p as the FLV event the
nms raises for it. -/
def pubToEvent (p : String) : PubEvent → Event
  | PubEvent.pre => Event.prePublish p
  | PubEvent.done => Event.donePublish p

/-- Whether an event is a viewer connect or disconnect. -/
def isViewerEvent : Event → Bool
  | Event.connect _ => true
  | Event.disconnect _ => true
  | _ => false

/-- Number of connects in a sequence. -/
def countConnects : List Event → Nat
  | [] => 0
  | Event.connect _ :: es => countConnects es + 1
  | _ :: es => countConnects es

/-- Number of disconnects in a sequence. -/
def countDisconnects : List Event → Nat
  | [] => 0
  | Event.disconnect _ :: es => countDisconnects es + 1
  | _ :: es => countDisconnects es

/-- Well-formedness of a socket event interleaving: a socket connects only
while absent and disconnects only while present, as socket.io guarantees. -/
def wellFormedB (s : FlvState) : List Event → Bool
  | [] => true
  | e :: es =>
    (match e with
     | Event.connect sid => decide (sid ∉ s.clients)
     | Event.disconnect sid => decide (sid ∈ s.clients)
     | _ => true) && wellFormedB (stepState s e) es

/-- The viewer counts broadcast to all sessions, in emission order. -/
def viewerCountBroadcasts : List Out → List Nat
  | [] => []
  | Out.broadcastAll (Msg.viewerCount n) :: rest => n :: viewerCountBroadcasts rest
  | Out.broadcastAll (Msg.streamStatus _ _) :: rest => viewerCountBroadcasts rest
  | Out.unicast _ _ :: rest => viewerCountBroadcasts rest

/-- The client-set cardinality after each event of a run. -/
def cardTrace (s : FlvState) : List Event → List Nat
  | [] => []
  | e :: es => (stepState s e).clients.card :: cardTrace (stepState s e) es

/-- Shape of the JSON object returned by GET /api/info in the FLV variant. -/
structure ApiInfo where
  ip : String
  flv : String
  rtmpIngest : String
  isLive : Bool
  viewers : Nat
deriving DecidableEq, Repr

/-- Default ports of the FLV variant (WEB_PORT, RTMP_PORT, NMS_HTTP_PORT). -/
def HTTP_PORT : Nat := 3000

/-- Default RTMP ingest port. -/
def RTMP_PORT : Nat := 1935

/-- Default internal media-server HTTP port. -/
def NMS_HTTP_PORT : Nat := 8000

/-- The GET /api/info handler of the FLV variant: isLive is membership of
the fixed /live/stream path in activeStreams, viewers is the client count. -/
def apiInfo (serverIp : String) (s : FlvState) : ApiInfo :=
  { ip := serverIp,
    flv := "http://" ++ serverIp ++ ":" ++ toString NMS_HTTP_PORT ++ "/" ++
           APP_NAME ++ "/" ++ STREAM_KEY ++ ".flv",
    rtmpIngest := "rtmp://" ++ serverIp ++ ":" ++ toString RTMP_PORT ++ "/" ++
           APP_NAME ++ "/" ++ STREAM_KEY,
    isLive := decide (livePath ∈ s.activeStreams),
    viewers := s.clients.card }

/-- Shape of the JSON object returned by GET /health in the FLV variant. -/
structure HealthInfo where
  status : String
  uptime : Nat
  timestamp : String
  activeStreams : Nat
  viewers : Nat
deriving DecidableEq, Repr

/-- The GET /health handler of the FLV variant. -/
def health (uptime : Nat) (timestamp : String) (s : FlvState) : HealthInfo :=
  { status := "ok",
    uptime := uptime,
    timestamp := timestamp,
    activeStreams := s.activeStreams.card,
    viewers := s.clients.card }

/-- Keys of the /api/info JSON object of the FLV variant, in source order. -/
def apiInfoFields : List String := ["ip", "flv", "rtmpIngest", "isLive", "viewers"]

/-- Keys of the /health JSON object, in source order. -/
def healthFields : List String := ["status", "uptime", "timestamp", "activeStreams", "viewers"]

/-- GET routes registered by the FLV variant. -/
def getRoutes : List String := ["/flv.min.js", "/", "/api/info", "/health"]

/-- Signal handlers registered by src/logger.js: SIGTERM and SIGINT both
close the HTTP server (which carries the socket.io notification channel),
stop the media server, then exit with status 0. -/
def signalHandlers : List (Sig × List ShutdownAction) :=
  [(Sig.SIGTERM, [ShutdownAction.closeHttpServer, ShutdownAction.stopMediaServer,
                  ShutdownAction.exitProcess 0]),
   (Sig.SIGINT, [ShutdownAction.closeHttpServer, ShutdownAction.stopMediaServer,
                 ShutdownAction.exitProcess 0])]

end Flv

/-! ## Peer-connection delivery leg (src/client.js and the spec-modelled
mediasoup server side) -/

namespace Rtc

/-- A server-side media producer derived from the live stream. -/
structure Producer where
  id : Nat
  kind : String
deriving DecidableEq, Repr

/-- A consumer descriptor as returned to the viewer. -/
structure ConsumerDesc where
  id : Nat
  producerId : Nat
  kind : String
deriving DecidableEq, Repr

/-- Response of the consume request. -/
structure ConsumeResp where
  consumers : List ConsumerDesc
deriving DecidableEq, Repr

/-- Modelled from the spec: the server-side consume handler is not under
src/ (only its caller, src/client.js, is). Per the spec, the server creates
one consumer per producer compatible with the declared capabilities and
returns the descriptors; with zero producers the list is empty. -/
def consume (compatible : Producer → Bool) (producers : List Producer) :
    ConsumeResp :=
  { consumers :=
      (producers.filter compatible).map
        (fun p => { id := p.id, producerId := p.id, kind := p.kind }) }

/-- Reaction of the caller to a consume response. -/
inductive ClientAction
  | retryInitAfterMs (ms : Nat)
  | attachConsumers (cs : List ConsumerDesc)
deriving DecidableEq, Repr

/-- src/client.js after the consume exchange: when the response has no
consumers, warn and setTimeout(init, 1000); otherwise attach each consumer. -/
def clientOnConsume (resp : ConsumeResp) : ClientAction :=
  if resp.consumers.isEmpty then ClientAction.retryInitAfterMs 1000
  else ClientAction.attachConsumers resp.consumers

end Rtc

/-! ## Helper lemmas -/

/-- For a nonempty publish-lifecycle sequence on identity p, membership of p
in activeStreams after the run is decided by the last event alone. -/
lemma flv_pub_run_last (p : String) :
    ∀ (es : List Flv.PubEvent) (s : Flv.FlvState), es ≠ [] →
      ((p ∈ (Flv.runState s (es.map (Flv.pubToEvent p))).activeStreams) ↔
        es.getLast? = some Flv.PubEvent.pre)
  | [], _, h => absurd rfl h
  | [e], s, _ => by
      cases e <;>
        simp [Flv.runState, Flv.stepState, Flv.step, Flv.pubToEvent,
          Finset.mem_insert_self, Finset.not_mem_erase]
  | e :: e2 :: es, s, _ => by
      have ih :=
        flv_pub_run_last p (e2 :: es) (Flv.stepState s (Flv.pubToEvent p e))
          (by simp)
      rw [List.map_cons, Flv.runState, List.getLast?_cons_cons]
      exact ih

/-- Connects add one to the client count and disconnects remove one, so the
count after a well-formed run balances connects against disconnects. -/
lemma flv_run_card (es : List Flv.Event) :
    ∀ s : Flv.FlvState,
      es.all Flv.isViewerEvent = true → Flv.wellFormedB s es = true →
      (Flv.runState s es).clients.card + Flv.countDisconnects es =
        s.clients.card + Flv.countConnects es := by
  induction es with
  | nil =>
    intro s _ _
    simp [Flv.runState, Flv.countConnects, Flv.countDisconnects]
  | cons e es ih =>
    intro s hall hwf
    rw [List.all_cons, Bool.and_eq_true] at hall
    obtain ⟨he, hall⟩ := hall
    cases e with
    | connect sid =>
      rw [Flv.wellFormedB, Bool.and_eq_true] at hwf
      obtain ⟨hmem, hwf⟩ := hwf
      have hmem : sid ∉ s.clients := by simpa using hmem
      have hstep :
          (Flv.stepState s (Flv.Event.connect sid)).clients =
            insert sid s.clients := rfl
      have hrec := ih (Flv.stepState s (Flv.Event.connect sid)) hall hwf
      rw [hstep, Finset.card_insert_of_not_mem hmem] at hrec
      simp only [Flv.runState, Flv.countConnects, Flv.countDisconnects]
      omega
    | disconnect sid =>
      rw [Flv.wellFormedB, Bool.and_eq_true] at hwf
      obtain ⟨hmem, hwf⟩ := hwf
      have hmem : sid ∈ s.clients := by simpa using hmem
      have hpos : 0 < s.clients.card := Finset.card_pos.mpr ⟨sid, hmem⟩
      have hstep :
          (Flv.stepState s (Flv.Event.disconnect sid)).clients =
            s.clients.erase sid := rfl
      have hrec := ih (Flv.stepState s (Flv.Event.disconnect sid)) hall hwf
      rw [hstep, Finset.card_erase_of_mem hmem] at hrec
      simp only [Flv.runState, Flv.countConnects, Flv.countDisconnects]
      omega
    | prePublish path => simp [Flv.isViewerEvent] at he
    | donePublish path => simp [Flv.isViewerEvent] at he
    | doneConnect => simp [Flv.isViewerEvent] at he

/-- Extracting viewer-count broadcasts distributes over concatenation. -/
lemma flv_vcb_append (a b : List Flv.Out) :
    Flv.viewerCountBroadcasts (a ++ b) =
      Flv.viewerCountBroadcasts a ++ Flv.viewerCountBroadcasts b := by
  induction a with
  | nil => simp [Flv.viewerCountBroadcasts]
  | cons o rest ih =>
    cases o with
    | broadcastAll m => cases m <;> simp [Flv.viewerCountBroadcasts, ih]
    | unicast sid m => simp [Flv.viewerCountBroadcasts, ih]

/-- Along a run of viewer events, the viewer counts broadcast to all
sessions are exactly the successive client-set sizes. -/
lemma flv_run_trace (es : List Flv.Event) :
    ∀ s : Flv.FlvState, es.all Flv.isViewerEvent = true →
      Flv.viewerCountBroadcasts (Flv.runOut s es) = Flv.cardTrace s es := by
  induction es with
  | nil => intro s _; rfl
  | cons e es ih =>
    intro s hall
    rw [List.all_cons, Bool.and_eq_true] at hall
    obtain ⟨he, hall⟩ := hall
    cases e with
    | connect sid =>
      rw [Flv.runOut, flv_vcb_append, ih _ hall]
      rfl
    | disconnect sid =>
      rw [Flv.runOut, flv_vcb_append, ih _ hall]
      rfl
    | prePublish path => simp [Flv.isViewerEvent] at he
    | donePublish path => simp [Flv.isViewerEvent] at he
    | doneConnect => simp [Flv.isViewerEvent] at he

/-! ## Claim theorems -/

/-- Claim C1, counterexample: with /live/stream live, the doneConnect
handler of the FLV variant changes no state and broadcasts nothing, so the
identity stays live; and in the HLS variant, which owns the transcoding
subprocess, the donePublish handler leaves that subprocess tracked and
running, so no stop is invoked. -/
theorem c1_done_events_counterexample :
    Flv.livePath ∈
      (Flv.stepState Flv.initState
        (Flv.Event.prePublish Flv.livePath)).activeStreams ∧
    Flv.step (Flv.stepState Flv.initState (Flv.Event.prePublish Flv.livePath))
        Flv.Event.doneConnect =
      (Flv.stepState Flv.initState (Flv.Event.prePublish Flv.livePath), []) ∧
    Flv.livePath ∈
      (Flv.stepState
        (Flv.stepState Flv.initState (Flv.Event.prePublish Flv.livePath))
        Flv.Event.doneConnect).activeStreams ∧
    (Hls.onDonePublish Hls.inputPath
        (Hls.onPrePublish Hls.inputPath Hls.init)).ffmpegRunning = true := by
  exact ⟨by decide, rfl, by decide, by decide⟩

/-- Claim C1 (amended): on donePublish for a live identity the FLV variant
removes the identity from activeStreams and broadcasts streamStatus with
live false to all connected sessions; but the doneConnect handler changes
nothing and no transcoder stop is invoked anywhere — the HLS variant keeps
its ffmpeg process tracked across donePublish. -/
theorem flv_donePublish_marks_not_live (s : Flv.FlvState) (path : String)
    (_h : path ∈ s.activeStreams) :
    path ∉ (Flv.stepState s (Flv.Event.donePublish path)).activeStreams ∧
    Flv.stepOut s (Flv.Event.donePublish path) =
      [Flv.Out.broadcastAll (Flv.Msg.streamStatus false path)] ∧
    Flv.step s Flv.Event.doneConnect = (s, []) ∧
    Hls.onDonePublish path (Hls.startFFmpeg Hls.init) =
      Hls.startFFmpeg Hls.init := by
  exact ⟨Finset.not_mem_erase path s.activeStreams, rfl, rfl, rfl⟩

/-- Claim C1 amended witness at identity /live/stream, made live first. -/
theorem flv_donePublish_marks_not_live_witness :
    (Flv.livePath ∈
      (Flv.stepState Flv.initState
        (Flv.Event.prePublish Flv.livePath)).activeStreams) ∧
    (Flv.livePath ∉
      (Flv.stepState
        (Flv.stepState Flv.initState (Flv.Event.prePublish Flv.livePath))
        (Flv.Event.donePublish Flv.livePath)).activeStreams ∧
     Flv.stepOut
        (Flv.stepState Flv.initState (Flv.Event.prePublish Flv.livePath))
        (Flv.Event.donePublish Flv.livePath) =
      [Flv.Out.broadcastAll (Flv.Msg.streamStatus false Flv.livePath)] ∧
     Flv.step (Flv.stepState Flv.initState (Flv.Event.prePublish Flv.livePath))
        Flv.Event.doneConnect =
      (Flv.stepState Flv.initState (Flv.Event.prePublish Flv.livePath), []) ∧
     Hls.onDonePublish Flv.livePath (Hls.startFFmpeg Hls.init) =
      Hls.startFFmpeg Hls.init) :=
  ⟨by decide,
   flv_donePublish_marks_not_live
     (Flv.stepState Flv.initState (Flv.Event.prePublish Flv.livePath))
     Flv.livePath (by decide)⟩

/-- Claim C2: startFFmpeg is idempotent — when a process is already tracked
it is a no-op, and two consecutive calls from the initial state spawn the
subprocess exactly once and leave exactly one tracked process. -/
theorem startFFmpeg_idempotent (s : Hls.HlsState)
    (h : s.ffmpegRunning = true) :
    Hls.startFFmpeg s = s ∧
    Hls.startFFmpeg (Hls.startFFmpeg s) = Hls.startFFmpeg s ∧
    (Hls.startFFmpeg (Hls.startFFmpeg Hls.init)).spawnCount = 1 ∧
    Hls.activeProcs (Hls.startFFmpeg (Hls.startFFmpeg Hls.init)) = 1 := by
  have h1 : Hls.startFFmpeg s = s := by simp [Hls.startFFmpeg, h]
  exact ⟨h1, by rw [h1]; exact h1, by decide, by decide⟩

/-- Claim C2 witness at a state with a tracked process. -/
theorem startFFmpeg_idempotent_witness :
    ((⟨true, 1⟩ : Hls.HlsState).ffmpegRunning = true) ∧
    (Hls.startFFmpeg ⟨true, 1⟩ = (⟨true, 1⟩ : Hls.HlsState) ∧
     Hls.startFFmpeg (Hls.startFFmpeg ⟨true, 1⟩) =
       Hls.startFFmpeg ⟨true, 1⟩ ∧
     (Hls.startFFmpeg (Hls.startFFmpeg Hls.init)).spawnCount = 1 ∧
     Hls.activeProcs (Hls.startFFmpeg (Hls.startFFmpeg Hls.init)) = 1) :=
  ⟨rfl, startFFmpeg_idempotent ⟨true, 1⟩ rfl⟩

/-- Claim C3: starting from process start, after any finite sequence of
prePublish and donePublish events on one identity, the identity is recorded
live exactly when the last event of the sequence was prePublish. -/
theorem live_iff_last_prePublish (p : String) (es : List Flv.PubEvent) :
    (p ∈ (Flv.runState Flv.initState
        (es.map (Flv.pubToEvent p))).activeStreams) ↔
      es.getLast? = some Flv.PubEvent.pre := by
  cases es with
  | nil => simp [Flv.runState, Flv.initState]
  | cons e es => exact flv_pub_run_last p (e :: es) Flv.initState (by simp)

/-- Claim C4, counterexample: after ffmpeg is started and its subprocess
exits without a stop request, the exit handler leaves no tracked job and
spawns no replacement — spawn count stays 1 — contradicting the claimed
automatic restart while restart budget remains. There is no restart budget
and no lastError field anywhere in the state the source maintains. -/
theorem c4_crash_restart_counterexample :
    (Hls.ffmpegOnExit (Hls.startFFmpeg Hls.init)).ffmpegRunning = false ∧
    (Hls.ffmpegOnExit (Hls.startFFmpeg Hls.init)).spawnCount = 1 ∧
    Hls.activeProcs (Hls.ffmpegOnExit (Hls.startFFmpeg Hls.init)) = 0 := by
  decide

/-- Claim C4 (amended): whatever the state, the exit handler only clears
the tracked process handle — no restart, no budget bookkeeping, no error
record; a fresh subprocess appears only on a later prePublish of the
configured input path. -/
theorem ffmpeg_exit_clears_handle_only (s : Hls.HlsState) :
    Hls.ffmpegOnExit s = ⟨false, s.spawnCount⟩ ∧
    Hls.onPrePublish Hls.inputPath (Hls.ffmpegOnExit s) =
      ⟨true, s.spawnCount + 1⟩ := by
  refine ⟨rfl, ?_⟩
  simp [Hls.onPrePublish, Hls.startFFmpeg, Hls.ffmpegOnExit]

/-- Claim C5, counterexample: the HLS variant — the one that spawns and
tracks a transcoding subprocess — registers no handler for any graceful
shutdown signal, so no shutdown path stops its transcoding job. -/
theorem c5_shutdown_counterexample :
    handlerFor Hls.signalHandlers Sig.SIGTERM = none ∧
    handlerFor Hls.signalHandlers Sig.SIGINT = none ∧
    Hls.signalHandlers = [] := by
  exact ⟨rfl, rfl, rfl⟩

/-- Claim C5 (amended): the FLV variant registers SIGTERM and SIGINT
handlers that close the HTTP server carrying the viewer notification
channel, stop the media server, then exit with status 0; the HLS variant
registers no shutdown handler, so its ffmpeg subprocess is never stopped by
the server on a shutdown signal. -/
theorem shutdown_signal_handlers :
    handlerFor Flv.signalHandlers Sig.SIGTERM =
      some [ShutdownAction.closeHttpServer, ShutdownAction.stopMediaServer,
            ShutdownAction.exitProcess 0] ∧
    handlerFor Flv.signalHandlers Sig.SIGINT =
      some [ShutdownAction.closeHttpServer, ShutdownAction.stopMediaServer,
            ShutdownAction.exitProcess 0] ∧
    handlerFor Hls.signalHandlers Sig.SIGTERM = none ∧
    handlerFor Hls.signalHandlers Sig.SIGINT = none := by
  refine ⟨by decide, by decide, rfl, rfl⟩

/-- Claim C6: over any well-formed interleaving of viewer connects and
disconnects from process start, the final client count balances connects
against disconnects (so it equals N − M), and the viewer counts broadcast
to all sessions are exactly the successive client-set sizes — one
broadcast per event, the last one carrying N − M. -/
theorem viewer_count_broadcast_correct (es : List Flv.Event)
    (h1 : es.all Flv.isViewerEvent = true)
    (h2 : Flv.wellFormedB Flv.initState es = true) :
    (Flv.runState Flv.initState es).clients.card + Flv.countDisconnects es =
      Flv.countConnects es ∧
    Flv.viewerCountBroadcasts (Flv.runOut Flv.initState es) =
      Flv.cardTrace Flv.initState es := by
  constructor
  · have hcard := flv_run_card es Flv.initState h1 h2
    simpa [Flv.initState] using hcard
  · exact flv_run_trace es Flv.initState h1

/-- Claim C6 witness: three connects then one disconnect — counts 1, 2, 3,
2 are broadcast and the final count is 3 − 1 = 2. -/
theorem viewer_count_broadcast_correct_witness :
    ([Flv.Event.connect 0, Flv.Event.connect 1, Flv.Event.connect 2,
        Flv.Event.disconnect 1].all Flv.isViewerEvent = true) ∧
    (Flv.wellFormedB Flv.initState
      [Flv.Event.connect 0, Flv.Event.connect 1, Flv.Event.connect 2,
        Flv.Event.disconnect 1] = true) ∧
    ((Flv.runState Flv.initState
        [Flv.Event.connect 0, Flv.Event.connect 1, Flv.Event.connect 2,
          Flv.Event.disconnect 1]).clients.card +
        Flv.countDisconnects
          [Flv.Event.connect 0, Flv.Event.connect 1, Flv.Event.connect 2,
            Flv.Event.disconnect 1] =
      Flv.countConnects
        [Flv.Event.connect 0, Flv.Event.connect 1, Flv.Event.connect 2,
          Flv.Event.disconnect 1] ∧
     Flv.viewerCountBroadcasts
        (Flv.runOut Flv.initState
          [Flv.Event.connect 0, Flv.Event.connect 1, Flv.Event.connect 2,
            Flv.Event.disconnect 1]) =
      Flv.cardTrace Flv.initState
        [Flv.Event.connect 0, Flv.Event.connect 1, Flv.Event.connect 2,
          Flv.Event.disconnect 1]) :=
  ⟨by decide, by decide,
   viewer_count_broadcast_correct
     [Flv.Event.connect 0, Flv.Event.connect 1, Flv.Event.connect 2,
       Flv.Event.disconnect 1] (by decide) (by decide)⟩

/-- Claim C7, counterexample: the HLS variant /api/info carries only ip,
rtmpIngest and hls — no isLive and no viewers field — and that variant
registers no /health route at all. -/
theorem c7_api_fields_counterexample :
    Hls.apiInfoFields = ["ip", "rtmpIngest", "hls"] ∧
    "isLive" ∉ Hls.apiInfoFields ∧
    "viewers" ∉ Hls.apiInfoFields ∧
    "/health" ∉ Hls.getRoutes := by
  exact ⟨rfl, by decide, by decide, by decide⟩

/-- Claim C7 (amended): in the FLV variant, /api/info returns exactly the
fields ip, flv (delivery locator), rtmpIngest (ingest locator), isLive and
viewers with isLive and viewers read from the current state, and /health
returns exactly status, uptime, timestamp, activeStreams and viewers; the
HLS variant /api/info has only ip, rtmpIngest and hls and there is no
/health route. -/
theorem http_query_surface (ip timestamp : String) (uptime : Nat)
    (s : Flv.FlvState) :
    (Flv.apiInfo ip s).isLive = decide (Flv.livePath ∈ s.activeStreams) ∧
    (Flv.apiInfo ip s).viewers = s.clients.card ∧
    (Flv.apiInfo ip s).ip = ip ∧
    (Flv.health uptime timestamp s).status = "ok" ∧
    (Flv.health uptime timestamp s).uptime = uptime ∧
    (Flv.health uptime timestamp s).activeStreams = s.activeStreams.card ∧
    (Flv.health uptime timestamp s).viewers = s.clients.card ∧
    Flv.apiInfoFields = ["ip", "flv", "rtmpIngest", "isLive", "viewers"] ∧
    Flv.healthFields =
      ["status", "uptime", "timestamp", "activeStreams", "viewers"] ∧
    Hls.apiInfoFields = ["ip", "rtmpIngest", "hls"] ∧
    "/health" ∈ Flv.getRoutes ∧ "/health" ∉ Hls.getRoutes := by
  refine ⟨rfl, rfl, rfl, rfl, rfl, rfl, rfl, rfl, rfl, rfl, by decide,
    by decide⟩

/-- Claim C8: with zero producers the consume response carries no consumer
— none is fabricated — and the caller of src/client.js reacts to an empty
consumer list by retrying the whole negotiation after 1000 ms. -/
theorem consume_zero_producers_retry (compatible : Rtc.Producer → Bool) :
    (Rtc.consume compatible []).consumers = [] ∧
    Rtc.clientOnConsume (Rtc.consume compatible []) =
      Rtc.ClientAction.retryInitAfterMs 1000 := by
  exact ⟨rfl, rfl⟩

/-- Claim C9: in the HLS variant, a prePublish launches the transcoding
subprocess exactly when the stream path equals the configured /input/stream
and no subprocess is tracked; a publish under any other path leaves the
transcoder state unchanged. -/
theorem hls_prePublish_launch_iff (streamPath : String) (s : Hls.HlsState) :
    ((Hls.onPrePublish streamPath s).spawnCount = s.spawnCount + 1 ↔
      (streamPath = Hls.inputPath ∧ s.ffmpegRunning = false)) ∧
    ((Hls.onPrePublish streamPath s).ffmpegRunning =
      (s.ffmpegRunning || decide (streamPath = Hls.inputPath))) ∧
    (streamPath ≠ Hls.inputPath → Hls.onPrePublish streamPath s = s) := by
  by_cases hp : streamPath = Hls.inputPath <;>
    cases hr : s.ffmpegRunning <;>
      simp [Hls.onPrePublish, Hls.startFFmpeg, hp, hr]

/-- Claim C9 witness at an unrelated path and the initial state. -/
theorem hls_prePublish_launch_iff_witness :
    ((Hls.onPrePublish "/live/stream" Hls.init).spawnCount =
        Hls.init.spawnCount + 1 ↔
      ("/live/stream" = Hls.inputPath ∧ Hls.init.ffmpegRunning = false)) ∧
    ((Hls.onPrePublish "/live/stream" Hls.init).ffmpegRunning =
      (Hls.init.ffmpegRunning || decide ("/live/stream" = Hls.inputPath))) ∧
    ("/live/stream" ≠ Hls.inputPath →
      Hls.onPrePublish "/live/stream" Hls.init = Hls.init) :=
  hls_prePublish_launch_iff "/live/stream" Hls.init

/-- Claim C10: the streamStatus unicast to a newly connected viewer reports
live as nonemptiness of activeStreams with the fixed /live/stream path,
while /api/info isLive is membership of /live/stream in activeStreams;
after a publish under /live/other the unicast says live while /api/info
says not live. -/
theorem flv_liveness_views_disagree :
    (Flv.Out.unicast 0 (Flv.Msg.streamStatus true Flv.livePath) ∈
      Flv.stepOut
        (Flv.stepState Flv.initState (Flv.Event.prePublish "/live/other"))
        (Flv.Event.connect 0)) ∧
    ((Flv.apiInfo "192.168.1.50"
        (Flv.stepState Flv.initState
          (Flv.Event.prePublish "/live/other"))).isLive = false) ∧
    (∀ (s : Flv.FlvState) (sid : Nat),
      Flv.Out.unicast sid
          (Flv.Msg.streamStatus (decide (0 < s.activeStreams.card))
            Flv.livePath) ∈
        Flv.stepOut s (Flv.Event.connect sid)) ∧
    (∀ (s : Flv.FlvState) (ip : String),
      (Flv.apiInfo ip s).isLive = decide (Flv.livePath ∈ s.activeStreams)) := by
  refine ⟨by decide, by decide, ?_, fun s ip => rfl⟩
  intro s sid
  simp [Flv.stepOut, Flv.step]

end Streaming
